import Mathlib

/-!
Shallow embedding of the authentication and session core of the mp2-backend
service (TypeScript, Express and Mongoose). The definitions below translate,
function by function, the code of src/src/controllers/authController.ts,
src/src/controllers/userController.ts, src/src/middleware/auth.ts,
src/src/models/user.ts and the route wiring of src/src/routes.

Modelling conventions, stated once:
- bcrypt is modelled as a free one-way constructor: `bcryptHash` wraps its
  input, and `bcryptCompare candidate stored` succeeds exactly when `stored`
  is one application of the hash to the raw candidate. This captures an
  ideal salted hash (injective, plaintext never equal to a hash).
- A JSON web token is a record holding its payload (an association list of
  claims), the signing secret it was signed with, and its expiry instant.
  `jwtVerify` succeeds exactly when the verifying secret matches and the
  token is unexpired, mirroring jwt.sign and jwt.verify.
- Time is a natural number of seconds; jwt.sign with expiresIn 7d gives
  exp = now + sevenDays.
- The Mongoose schema of models/user.ts declares the email path with
  lowercase and trim setters; Mongoose (version 6 and later) applies these
  setters both when a document field is assigned and to query filter values,
  so `findOneByEmail` and document construction both normalise through
  `normEmail`.
- Request handlers become pure functions from (store, inputs) to
  (result, store). Response helpers successResponse and errorResponse of
  utils/responseHandler.ts are reflected in the (status, message, data)
  shape of the result inductives. The UserActivity audit log writes are
  side effects on a separate collection and are not part of any claim, so
  they are omitted.
-/

set_option autoImplicit false

namespace MP2

/-- Model of a bcrypt-hashable secret value. `raw s` is a plaintext string,
`hashed v` is one application of bcrypt to `v`. An ideal hash is injective
and never collides with a plaintext, which the free constructor gives us. -/
inductive HashVal where
  | raw (s : String)
  | hashed (v : HashVal)
  deriving DecidableEq, Repr

/-- bcrypt.hash(secret, 10): one application of the one-way hash. -/
def bcryptHash (v : HashVal) : HashVal := .hashed v

/-- bcrypt.compare(candidate, stored): true exactly when `stored` is the
hash of the raw candidate. Never throws; false on any mismatch. -/
def bcryptCompare (candidate : String) (stored : HashVal) : Bool :=
  stored == .hashed (.raw candidate)

/-- A JSON value as it appears in request bodies, token payloads and
response bodies: a string, a number, or a stored hash value. -/
inductive JVal where
  | jstr (s : String)
  | jnum (n : Nat)
  | jhash (h : HashVal)
  deriving DecidableEq, Repr

/-- Association-list lookup of a JSON object key (first binding wins,
as for a JavaScript object literal). -/
def lookupJ (obj : List (String × JVal)) (k : String) : Option JVal :=
  (obj.find? (fun p => p.1 == k)).map (fun p => p.2)

/-- A signed session token: payload claims, the secret it was signed with
(standing in for the signature), and its expiry instant in seconds. -/
structure Token where
  payload : List (String × JVal)
  sig : String
  exp : Nat
  deriving DecidableEq, Repr

/-- jwt.sign(payload, secret, expiresIn): stamps the payload with the
secret and an expiry `now + ttl`. -/
def jwtSign (payload : List (String × JVal)) (secret : String) (ttl : Nat) (now : Nat) : Token :=
  { payload := payload, sig := secret, exp := now + ttl }

/-- jwt.verify(token, secret): returns the decoded payload when the
signature matches the secret and the token is unexpired, otherwise fails
(modelled as none; the callers catch the throw). -/
def jwtVerify (tok : Token) (secret : String) (now : Nat) : Option (List (String × JVal)) :=
  if tok.sig = secret ∧ now < tok.exp then some tok.payload else none

/-- The 7d expiry used by login in authController.ts, in seconds. -/
def sevenDays : Nat := 7 * 24 * 60 * 60

/-- Characters trimmed and lowercased, used to model the Mongoose email
setters (lowercase: true, trim: true) of models/user.ts. -/
def trimChars (cs : List Char) : List Char :=
  ((cs.dropWhile Char.isWhitespace).reverse.dropWhile Char.isWhitespace).reverse

/-- The email normalisation performed by the schema setters of
models/user.ts: trim surrounding whitespace, lowercase the rest. Mongoose 6+
applies these setters on assignment and on query filter values alike. -/
def normEmail (e : String) : String :=
  String.mk ((trimChars e.data).map Char.toLower)

/-- A persisted User document, after the schema of models/user.ts. The
`tokenVersion` field is referenced by userController.ts (changePassword and
resetPasswordWithAnswer increment it) but is absent from the captured
models/user.ts schema; it is modelled from the spec: a non-negative integer
starting at 0 on creation. `password` and `securityAnswer` hold HashVal so
that both plaintext and hashed states are representable. -/
structure UserRec where
  id : String
  firstName : String
  lastName : String
  age : Nat
  email : String
  password : HashVal
  securityQuestion : String
  securityAnswer : HashVal
  tokenVersion : Nat
  deriving DecidableEq, Repr

/-- The User collection: a list of documents. -/
abbrev Store := List UserRec

/-- User.findOne with an email filter. The lowercase and trim setters are
applied to the filter value (Mongoose 6+ behaviour), and stored emails are
already normalised, so the lookup is case-insensitive in effect. -/
def findOneByEmail (store : Store) (email : String) : Option UserRec :=
  store.find? (fun u => u.email == normEmail email)

/-- User.findById. -/
def findById (store : Store) (id : String) : Option UserRec :=
  store.find? (fun u => u.id == id)

/-- Saving a fetched document back (user.save() on an existing doc):
replace the document with the matching id. -/
def saveDoc (store : Store) (u : UserRec) : Store :=
  store.map (fun w => if w.id == u.id then u else w)

/-- The pre-save hook of models/user.ts applied to a new document: on a
new document every set path is modified, so both the password and the
security answer are (re-)hashed. -/
def preSaveHashNew (u : UserRec) : UserRec :=
  { u with password := bcryptHash u.password, securityAnswer := bcryptHash u.securityAnswer }

/-- The pre-save hook of models/user.ts applied to a fetched document whose
only modified secret path is password: the password is (re-)hashed, the
security answer is untouched. -/
def preSaveHashPassword (u : UserRec) : UserRec :=
  { u with password := bcryptHash u.password }

/-- newUser.save() for a new document: run the pre-save hook, then insert,
honouring the unique index on the (normalised) email; a duplicate insert
surfaces as a driver error caught by the controller. -/
def saveNew (store : Store) (u : UserRec) : Except String Store :=
  let v := preSaveHashNew u
  if store.any (fun w => w.email == v.email) then
    .error "E11000 duplicate key"
  else
    .ok (store ++ [v])

/-- The password strength check shared by authController.ts and
userController.ts: at least 8 characters with an uppercase letter, a
lowercase letter, a digit and one of the symbols of the character class in
the source regex. The regex dot is modelled as matching any character,
which is faithful for newline-free inputs. -/
def isStrongPassword (password : String) : Bool :=
  decide (8 ≤ password.length) &&
  password.data.any Char.isUpper &&
  password.data.any Char.isLower &&
  password.data.any Char.isDigit &&
  password.data.any (fun c => "@$!%*?&".data.contains c)

/-- The request body of register in authController.ts. JavaScript falsiness
of a missing or empty field is modelled as the empty string, and as 0 for
the numeric age. -/
structure RegisterInput where
  firstName : String
  lastName : String
  age : Nat
  email : String
  password : String
  securityQuestion : String
  securityAnswer : String
  deriving DecidableEq, Repr

/-- The success payload of register (authController.ts lines 103-114):
exactly the public fields, built from the saved document. -/
structure RegisterOk where
  id : String
  firstName : String
  lastName : String
  email : String
  securityQuestion : String
  deriving DecidableEq, Repr

/-- Outcome of register: an errorResponse (status, message) or a
successResponse carrying the public payload. -/
inductive RegisterResult where
  | err (status : Nat) (message : String)
  | ok (status : Nat) (message : String) (data : RegisterOk)
  deriving DecidableEq, Repr

/-- register of authController.ts (lines 48-119): required-field check,
strength check, duplicate-email pre-check, manual bcrypt hashing of the
password and the security answer, then save (which runs the pre-save hook
of models/user.ts on the already-hashed values). `newId` stands for the
ObjectId the driver mints. -/
def register (store : Store) (newId : String) (inp : RegisterInput) : RegisterResult × Store :=
  if inp.firstName = "" ∨ inp.lastName = "" ∨ inp.age = 0 ∨ inp.email = "" ∨
      inp.password = "" ∨ inp.securityQuestion = "" ∨ inp.securityAnswer = "" then
    (.err 400 "All fields are required", store)
  else if isStrongPassword inp.password = false then
    (.err 400 "Password too weak. Must include upper/lowercase, number, and symbol (min 8 chars)", store)
  else
    match findOneByEmail store inp.email with
    | some _ => (.err 400 "Email is already registered", store)
    | none =>
      let newUser : UserRec :=
        { id := newId
          firstName := inp.firstName
          lastName := inp.lastName
          age := inp.age
          email := normEmail inp.email
          password := bcryptHash (.raw inp.password)
          securityQuestion := inp.securityQuestion
          securityAnswer := bcryptHash (.raw inp.securityAnswer)
          tokenVersion := 0 }
      match saveNew store newUser with
      | .error _ => (.err 500 "Server error", store)
      | .ok store2 =>
        (.ok 201 "✅ User registered successfully"
          { id := newUser.id
            firstName := newUser.firstName
            lastName := newUser.lastName
            email := newUser.email
            securityQuestion := newUser.securityQuestion }, store2)

/-- Outcome of login: an errorResponse, or a successResponse with the user
fields and the freshly signed token. -/
inductive LoginResult where
  | err (status : Nat) (message : String)
  | ok (status : Nat) (message : String) (id firstName lastName email : String) (token : Token)
  deriving DecidableEq, Repr

/-- login of authController.ts (lines 140-173): find the user by email,
compare the password hash, then sign a token whose payload holds only the
user id and email, with a 7d expiry. -/
def login (store : Store) (secret : String) (now : Nat) (email password : String) : LoginResult :=
  match findOneByEmail store email with
  | none => .err 400 "Invalid credentials"
  | some user =>
    if bcryptCompare password user.password = false then
      .err 401 "Invalid credentials"
    else
      let token := jwtSign [("id", .jstr user.id), ("email", .jstr user.email)] secret sevenDays now
      .ok 200 "✅ Login successful" user.id user.firstName user.lastName user.email token

/-- Outcome of the verifyToken middleware: a denial response, or success
attaching the id and email to the request for downstream handlers. -/
inductive GuardResult where
  | denied (status : Nat) (message : String)
  | ok (id : String) (email : String)
  deriving DecidableEq, Repr

/-- verifyToken of middleware/auth.ts (lines 69-94): read the cookie token,
verify signature and expiry, look the user up by the decoded id, and attach
id and email from the stored document. No comparison of any token version
is performed anywhere in this middleware. -/
def verifyToken (store : Store) (secret : String) (now : Nat) (cookieToken : Option Token) : GuardResult :=
  match cookieToken with
  | none => .denied 401 "No token, authorization denied"
  | some tok =>
    match jwtVerify tok secret now with
    | none => .denied 403 "Invalid or expired token"
    | some payload =>
      let decodedId := match lookupJ payload "id" with
        | some (.jstr s) => s
        | _ => ""
      match findById store decodedId with
      | none => .denied 401 "User not found"
      | some user => .ok user.id user.email

/-- Outcome shape shared by the handlers that answer with only a status and
a message (logout, changePassword, resetPasswordWithAnswer). -/
inductive SimpleResult where
  | err (status : Nat) (message : String)
  | ok (status : Nat) (message : String)
  deriving DecidableEq, Repr

/-- logout of authController.ts (lines 188-191): clear the cookie and
answer success. The store is never touched. -/
def logout : SimpleResult := .ok 200 "✅ Logged out successfully"

/-- The logout route of authRoutes.ts: verifyToken runs before the logout
handler, so a missing or invalid token is denied by the middleware and the
handler only runs on guard success. The pipeline returns the response
together with the (unchanged) store. -/
def logoutRoute (store : Store) (secret : String) (now : Nat) (cookieToken : Option Token) : SimpleResult × Store :=
  match verifyToken store secret now cookieToken with
  | .denied s m => (.err s m, store)
  | .ok _ _ => (logout, store)

/-- changePassword of userController.ts (lines 446-479, the variant that
bumps tokenVersion): verify the current password, check the strength of the
new one, assign the manual bcrypt hash, increment tokenVersion, save (the
pre-save hook re-hashes the modified password path), and clear the cookie. -/
def changePassword2 (store : Store) (userIdOpt : Option String) (currentPassword newPassword : String) : SimpleResult × Store :=
  match userIdOpt with
  | none => (.err 401 "Unauthorized", store)
  | some userId =>
    match findById store userId with
    | none => (.err 404 "Usuario no encontrado", store)
    | some user =>
      if bcryptCompare currentPassword user.password = false then
        (.err 400 "Contraseña actual incorrecta", store)
      else if isStrongPassword newPassword = false then
        (.err 400 "Weak password: must include upper/lowercase, number, and symbol (min 8 chars)", store)
      else
        let updated := preSaveHashPassword
          { user with password := bcryptHash (.raw newPassword), tokenVersion := user.tokenVersion + 1 }
        (.ok 200 "✅ Contraseña cambiada con éxito. Debes volver a iniciar sesión.", saveDoc store updated)

/-- resetPasswordWithAnswer of userController.ts (lines 257-276, the cited
variant): find the user by email, compare the security answer, then hash
and save the new password with no strength check and no tokenVersion bump
(the pre-save hook re-hashes the modified password path). -/
def resetPasswordWithAnswer (store : Store) (email securityAnswer newPassword : String) : SimpleResult × Store :=
  match findOneByEmail store email with
  | none => (.err 404 "Usuario no encontrado", store)
  | some user =>
    if bcryptCompare securityAnswer user.securityAnswer = false then
      (.err 400 "Respuesta incorrecta", store)
    else
      let updated := preSaveHashPassword { user with password := bcryptHash (.raw newPassword) }
      (.ok 200 "Contraseña restablecida correctamente ✅", saveDoc store updated)

/-- Outcome of the security-question lookup: a success carrying the
question (or null), or an error response. -/
inductive QuestionResult where
  | okQuestion (status : Nat) (securityQuestion : Option String)
  | err (status : Nat) (message : String)
  deriving DecidableEq, Repr

/-- verifySecurityQuestion of userController.ts (lines 235-246): the
neutral variant, answering 200 with securityQuestion null when the email is
unknown, and the plaintext question when found. -/
def verifySecurityQuestionA (store : Store) (email : String) : QuestionResult :=
  match findOneByEmail store email with
  | none => .okQuestion 200 none
  | some user => .okQuestion 200 (some user.securityQuestion)

/-- verifySecurityQuestion of userController.ts (lines 484-494): the
divergent variant, answering 404 Usuario no encontrado when the email is
unknown, and the plaintext question when found. -/
def verifySecurityQuestionB (store : Store) (email : String) : QuestionResult :=
  match findOneByEmail store email with
  | none => .err 404 "Usuario no encontrado"
  | some user => .okQuestion 200 (some user.securityQuestion)

/-- Serialisation of a full User document as res.json renders it: every
schema path, the credential hashes included. -/
def userToJson (u : UserRec) : List (String × JVal) :=
  [("_id", .jstr u.id),
   ("firstName", .jstr u.firstName),
   ("lastName", .jstr u.lastName),
   ("age", .jnum u.age),
   ("email", .jstr u.email),
   ("password", .jhash u.password),
   ("securityQuestion", .jstr u.securityQuestion),
   ("securityAnswer", .jhash u.securityAnswer),
   ("tokenVersion", .jnum u.tokenVersion)]

/-- getUsers of userController.ts (lines 45-52): User.find() with no field
selection, serialised wholesale into the response. -/
def getUsers (store : Store) : List (List (String × JVal)) :=
  store.map userToJson

/-- Serialisation of the register success payload (authController.ts lines
103-114): only the five public fields. -/
def registerOkToJson (d : RegisterOk) : List (String × JVal) :=
  [("id", .jstr d.id),
   ("firstName", .jstr d.firstName),
   ("lastName", .jstr d.lastName),
   ("email", .jstr d.email),
   ("securityQuestion", .jstr d.securityQuestion)]

/-- Whether a serialised JSON object carries any hash value. -/
def containsHash (obj : List (String × JVal)) : Bool :=
  obj.any (fun p => match p.2 with
    | .jhash _ => true
    | _ => false)

/-- Coercion of a JSON value to a string, for the loosely typed update
fields of updateUser. -/
def asStr (v : JVal) : String :=
  match v with
  | .jstr s => s
  | .jnum n => toString n
  | .jhash _ => ""

/-- Coercion of a JSON value to a number. -/
def asNat (v : JVal) : Nat :=
  match v with
  | .jnum n => n
  | _ => 0

/-- Field assignment for an allowed firstName update. -/
def setFirstName (u : UserRec) (v : Option JVal) : UserRec :=
  match v with
  | some w => { u with firstName := asStr w }
  | none => u

/-- Field assignment for an allowed lastName update. -/
def setLastName (u : UserRec) (v : Option JVal) : UserRec :=
  match v with
  | some w => { u with lastName := asStr w }
  | none => u

/-- Field assignment for an allowed age update. -/
def setAge (u : UserRec) (v : Option JVal) : UserRec :=
  match v with
  | some w => { u with age := asNat w }
  | none => u

/-- Field assignment for an allowed email update; the schema setters
normalise the value on update as on save. -/
def setEmail (u : UserRec) (v : Option JVal) : UserRec :=
  match v with
  | some w => { u with email := normEmail (asStr w) }
  | none => u

/-- The update object built by updateUser (userController.ts lines 98-103):
only the keys of allowedUpdates are copied from the request body, whatever
else the body contains. -/
def applyAllowed (u : UserRec) (body : List (String × JVal)) : UserRec :=
  setEmail (setAge (setLastName (setFirstName u (lookupJ body "firstName"))
    (lookupJ body "lastName")) (lookupJ body "age")) (lookupJ body "email")

/-- Object.keys(updates): the allowed keys present in the body, in the
order of allowedUpdates. -/
def updatedFieldsOf (body : List (String × JVal)) : List String :=
  ["firstName", "lastName", "age", "email"].filter (fun k => (lookupJ body k).isSome)

/-- User.findByIdAndUpdate(id, updates, new true): apply the update
function to the matching document and return the updated document. -/
def findByIdAndUpdate (store : Store) (id : String) (f : UserRec → UserRec) : Option UserRec × Store :=
  match store.find? (fun u => u.id == id) with
  | none => (none, store)
  | some _ => ((store.find? (fun u => u.id == id)).map f,
      store.map (fun w => if w.id == id then f w else w))

/-- Outcome of updateUser: an error response, or success with the updated
document and the list of updated field names. -/
inductive UpdateResult where
  | err (status : Nat) (message : String)
  | ok (status : Nat) (message : String) (updatedUser : UserRec) (updatedFields : List String)
  deriving DecidableEq, Repr

/-- The duplicate-email guard of updateUser (userController.ts lines
106-109): when a truthy email update is present, look for another user
already holding it (query setters normalise the filter value). -/
def emailDupCheck (store : Store) (userId : String) (body : List (String × JVal)) : Bool :=
  match lookupJ body "email" with
  | some v => !(asStr v == "") &&
      store.any (fun u => u.email == normEmail (asStr v) && u.id != userId)
  | none => false

/-- updateUser of userController.ts (lines 93-129): take only the allowed
keys from the body, reject a duplicate email belonging to another user,
then findByIdAndUpdate. The password, securityQuestion and securityAnswer
paths are never part of the update object. -/
def updateUser (store : Store) (userIdOpt : Option String) (body : List (String × JVal)) : UpdateResult × Store :=
  match userIdOpt with
  | none => (.err 401 "Unauthorized", store)
  | some userId =>
    if emailDupCheck store userId body then
      (.err 400 "Email already in use", store)
    else
      match findByIdAndUpdate store userId (fun w => applyAllowed w body) with
      | (none, st) => (.err 404 "User not found", st)
      | (some updatedUser, st) =>
        (.ok 200 "✅ Profile updated successfully" updatedUser (updatedFieldsOf body), st)

/-- The credential view of a document: its id together with the three
fields updateUser must never touch. -/
def credView (u : UserRec) : String × HashVal × String × HashVal :=
  (u.id, u.password, u.securityQuestion, u.securityAnswer)

/-- The credential view of a whole store, document by document. -/
def credProj (store : Store) : List (String × HashVal × String × HashVal) :=
  store.map credView

/-- Concrete fixture: the single bcrypt hash of the scenario password. -/
def janeHash : HashVal := .hashed (.raw "Strong@123")

/-- Concrete fixture: the single bcrypt hash of the scenario answer. -/
def rexHash : HashVal := .hashed (.raw "Rex")

/-- Concrete fixture: the registered Jane Doe of the spec scenarios, stored
with correctly (singly) hashed credentials and tokenVersion 0. -/
def jane0 : UserRec :=
  { id := "u1"
    firstName := "Jane"
    lastName := "Doe"
    age := 25
    email := "jane@example.com"
    password := janeHash
    securityQuestion := "Pet name?"
    securityAnswer := rexHash
    tokenVersion := 0 }

/-- Concrete fixture: a store holding exactly Jane. -/
def store0 : Store := [jane0]

/-- Concrete fixture: the token login issues for Jane at time 0 with secret
"secret": payload id and email only. -/
def token0 : Token :=
  jwtSign [("id", .jstr "u1"), ("email", .jstr "jane@example.com")] "secret" sevenDays 0

/-- Concrete fixture: the store after Jane changes her password through
changePassword2, which bumps her tokenVersion from 0 to 1. -/
def c1Store : Store := (changePassword2 store0 (some "u1") "Strong@123" "NewPass@123").2

/-- Concrete fixture: the register request of end-to-end scenario 1. -/
def regJane : RegisterInput :=
  { firstName := "Jane"
    lastName := "Doe"
    age := 25
    email := "jane@example.com"
    password := "Strong@123"
    securityQuestion := "Pet name?"
    securityAnswer := "Rex" }

/-- Concrete fixture: registering Jane into an empty store. -/
def c4Run : RegisterResult × Store := register [] "u1" regJane

/-! Helper lemmas about the allowed-field updates of updateUser. -/

/-- A firstName update leaves the credential view alone. -/
theorem setFirstName_credView (u : UserRec) (v : Option JVal) :
    credView (setFirstName u v) = credView u := by
  cases v <;> rfl

/-- A lastName update leaves the credential view alone. -/
theorem setLastName_credView (u : UserRec) (v : Option JVal) :
    credView (setLastName u v) = credView u := by
  cases v <;> rfl

/-- An age update leaves the credential view alone. -/
theorem setAge_credView (u : UserRec) (v : Option JVal) :
    credView (setAge u v) = credView u := by
  cases v <;> rfl

/-- An email update leaves the credential view alone. -/
theorem setEmail_credView (u : UserRec) (v : Option JVal) :
    credView (setEmail u v) = credView u := by
  cases v <;> rfl

/-- The whole allowed-field update of updateUser leaves the credential view
of a document alone, whatever the request body holds. -/
theorem applyAllowed_credView (u : UserRec) (body : List (String × JVal)) :
    credView (applyAllowed u body) = credView u := by
  unfold applyAllowed
  rw [setEmail_credView, setAge_credView, setLastName_credView, setFirstName_credView]

/-- The store findByIdAndUpdate returns is either untouched or the
pointwise update of the matching documents. -/
theorem findByIdAndUpdate_snd (store : Store) (id : String) (f : UserRec → UserRec) :
    (findByIdAndUpdate store id f).2 = store ∨
    (findByIdAndUpdate store id f).2 = store.map (fun w => if w.id == id then f w else w) := by
  unfold findByIdAndUpdate
  cases store.find? (fun u => u.id == id) <;> simp

/-- Pointwise allowed-field updates preserve the credential view of the
whole store. -/
theorem credProj_map_applyAllowed (store : Store) (uid : String) (body : List (String × JVal)) :
    credProj (store.map (fun w => if w.id == uid then applyAllowed w body else w)) = credProj store := by
  induction store with
  | nil => rfl
  | cons a l ih =>
    simp only [List.map_cons, credProj] at ih ⊢
    refine congrArg₂ List.cons ?_ ih
    by_cases h : (a.id == uid) = true
    · rw [if_pos h, applyAllowed_credView]
    · rw [if_neg h]

/-! The claim theorems. -/

/-- C1 (code bug demonstration): after changePassword bumps the stored
tokenVersion of user u1 from 0 to 1, the previously issued token (which
embeds no token version at all, only id and email) still passes raw
signature and expiry verification AND still passes the verifyToken guard,
which attaches the user and succeeds instead of failing with a
session-expired error: the guard never compares any token version. -/
theorem changePassword_bump_not_checked_by_guard :
    c1Store.map UserRec.tokenVersion = [1] ∧
    lookupJ token0.payload "tokenVersion" = none ∧
    jwtVerify token0 "secret" 0 = some [("id", .jstr "u1"), ("email", .jstr "jane@example.com")] ∧
    verifyToken c1Store "secret" 0 (some token0) = .ok "u1" "jane@example.com" := by decide

/-- C2 (counterexample): the token login issues for Jane carries exactly
the id and email claims; its payload holds no tokenVersion key, so
verifying it cannot yield the token version the claim says was embedded at
issuance. -/
theorem login_token_omits_tokenVersion :
    login store0 "secret" 0 "jane@example.com" "Strong@123" =
      .ok 200 "✅ Login successful" "u1" "Jane" "Doe" "jane@example.com" token0 ∧
    token0.payload = [("id", .jstr "u1"), ("email", .jstr "jane@example.com")] ∧
    lookupJ token0.payload "tokenVersion" = none ∧
    (jwtVerify token0 "secret" 0).map (fun p => lookupJ p "tokenVersion") = some none := by decide

/-- C2 (amended): for every user found by email with a matching password,
login issues a token whose payload is exactly the id and email claims, and
immediate verification returns exactly that payload: the round-trip holds
for id and email, and nothing else is embedded. -/
theorem login_roundtrip_id_email (store : Store) (secret : String) (now : Nat)
    (email pw : String) (user : UserRec)
    (hfind : findOneByEmail store email = some user)
    (hpw : bcryptCompare pw user.password = true) :
    login store secret now email pw =
      .ok 200 "✅ Login successful" user.id user.firstName user.lastName user.email
        (jwtSign [("id", .jstr user.id), ("email", .jstr user.email)] secret sevenDays now) ∧
    jwtVerify (jwtSign [("id", .jstr user.id), ("email", .jstr user.email)] secret sevenDays now)
        secret now = some [("id", .jstr user.id), ("email", .jstr user.email)] := by
  have hlt : now < now + sevenDays := by unfold sevenDays; omega
  constructor
  · simp [login, hfind, hpw]
  · simp [jwtVerify, jwtSign, hlt]

/-- Witness for login_roundtrip_id_email at the concrete Jane fixture. -/
theorem login_roundtrip_id_email_witness :
    login store0 "secret" 0 "jane@example.com" "Strong@123" =
      .ok 200 "✅ Login successful" "u1" "Jane" "Doe" "jane@example.com"
        (jwtSign [("id", .jstr "u1"), ("email", .jstr "jane@example.com")] "secret" sevenDays 0) ∧
    jwtVerify (jwtSign [("id", .jstr "u1"), ("email", .jstr "jane@example.com")] "secret" sevenDays 0)
        "secret" 0 = some [("id", .jstr "u1"), ("email", .jstr "jane@example.com")] :=
  login_roundtrip_id_email store0 "secret" 0 "jane@example.com" "Strong@123" jane0
    (by decide) (by decide)

/-- C3 (counterexample): with no token the logout route is denied 401 by
the verifyToken middleware rather than answering a no-op success, and with
a valid token it answers success while leaving the tokenVersion of the
bearer at 0: no increment ever happens. -/
theorem logout_no_bump_and_requires_token :
    (logoutRoute store0 "secret" 0 none).1 = .err 401 "No token, authorization denied" ∧
    (logoutRoute store0 "secret" 0 (some token0)).1 = .ok 200 "✅ Logged out successfully" ∧
    (logoutRoute store0 "secret" 0 (some token0)).2.map UserRec.tokenVersion = [0] := by decide

/-- C3 (amended): the logout route never modifies the store for any
request; a missing token is denied 401 by the middleware; and whenever the
guard succeeds, the handler answers success and only instructs the
transport to clear the cookie. -/
theorem logout_route_behavior (store : Store) (secret : String) (now : Nat) :
    (∀ cookieToken, (logoutRoute store secret now cookieToken).2 = store) ∧
    (logoutRoute store secret now none).1 = .err 401 "No token, authorization denied" ∧
    (∀ tok i e, verifyToken store secret now (some tok) = .ok i e →
      (logoutRoute store secret now (some tok)).1 = .ok 200 "✅ Logged out successfully") := by
  refine ⟨?_, rfl, ?_⟩
  · intro ct
    unfold logoutRoute
    cases verifyToken store secret now ct <;> rfl
  · intro tok i e h
    unfold logoutRoute
    rw [h]
    rfl

/-- Witness for logout_route_behavior at the concrete Jane fixture. -/
theorem logout_route_behavior_witness :
    (logoutRoute store0 "secret" 0 (some token0)).2 = store0 ∧
    (logoutRoute store0 "secret" 0 none).1 = .err 401 "No token, authorization denied" ∧
    (logoutRoute store0 "secret" 0 (some token0)).1 = .ok 200 "✅ Logged out successfully" :=
  ⟨(logout_route_behavior store0 "secret" 0).1 (some token0),
   (logout_route_behavior store0 "secret" 0).2.1,
   (logout_route_behavior store0 "secret" 0).2.2 token0 "u1" "jane@example.com" (by decide)⟩

/-- C4 (code bug demonstration): registering Jane stores the DOUBLE bcrypt
hash of her password and of her security answer, because register hashes
manually and the pre-save hook of models/user.ts hashes the already-hashed
value again. The stored values are never the plaintext, but comparing the
original plaintext against the stored hash fails, and consequently login
with the correct password fails with Invalid credentials. -/
theorem register_double_hash_breaks_verify :
    c4Run.2.map UserRec.password = [.hashed (.hashed (.raw "Strong@123"))] ∧
    c4Run.2.map UserRec.securityAnswer = [.hashed (.hashed (.raw "Rex"))] ∧
    HashVal.hashed (.hashed (.raw "Strong@123")) ≠ .raw "Strong@123" ∧
    HashVal.hashed (.hashed (.raw "Rex")) ≠ .raw "Rex" ∧
    bcryptCompare "Strong@123" (HashVal.hashed (.hashed (.raw "Strong@123"))) = false ∧
    bcryptCompare "Rex" (HashVal.hashed (.hashed (.raw "Rex"))) = false ∧
    login c4Run.2 "secret" 0 "jane@example.com" "Strong@123" = .err 401 "Invalid credentials" := by
  decide

/-- C5 (counterexample): the login failure for an unregistered email is
status 400 while the failure for a registered email with a wrong password
is status 401; the two runs carry the same message but are distinguishable
by status, so they are not the same failure. -/
theorem login_failures_distinguishable_by_status :
    login store0 "secret" 0 "absent@example.com" "Whatever@1" = .err 400 "Invalid credentials" ∧
    login store0 "secret" 0 "jane@example.com" "Wrong@1234" = .err 401 "Invalid credentials" ∧
    login store0 "secret" 0 "absent@example.com" "Whatever@1" ≠
      login store0 "secret" 0 "jane@example.com" "Wrong@1234" := by decide

/-- C5 (amended): every unknown-email login fails with 400 Invalid
credentials and every wrong-password login fails with 401 Invalid
credentials: the message is identical (and never a user-not-found message)
but the statuses differ. -/
theorem login_failure_messages_identical (store : Store) (secret : String) (now : Nat) :
    (∀ email pw, findOneByEmail store email = none →
      login store secret now email pw = .err 400 "Invalid credentials") ∧
    (∀ email pw user, findOneByEmail store email = some user →
      bcryptCompare pw user.password = false →
      login store secret now email pw = .err 401 "Invalid credentials") := by
  constructor
  · intro email pw h
    simp [login, h]
  · intro email pw user h hc
    simp [login, h, hc]

/-- Witness for login_failure_messages_identical at the Jane fixture. -/
theorem login_failure_messages_identical_witness :
    login store0 "secret" 0 "absent@example.com" "Whatever@1" = .err 400 "Invalid credentials" ∧
    login store0 "secret" 0 "jane@example.com" "Wrong@1234" = .err 401 "Invalid credentials" :=
  ⟨(login_failure_messages_identical store0 "secret" 0).1 "absent@example.com" "Whatever@1"
      (by decide),
   (login_failure_messages_identical store0 "secret" 0).2 "jane@example.com" "Wrong@1234" jane0
      (by decide) (by decide)⟩

/-- C6 (counterexample): the password abc12345 fails the strength check,
yet resetPasswordWithAnswer (the cited variant) accepts it with the correct
security answer, answers success, and changes the stored state: the reset
flow enforces no strength policy. -/
theorem reset_accepts_weak_password :
    isStrongPassword "abc12345" = false ∧
    (resetPasswordWithAnswer store0 "jane@example.com" "Rex" "abc12345").1 =
      .ok 200 "Contraseña restablecida correctamente ✅" ∧
    (resetPasswordWithAnswer store0 "jane@example.com" "Rex" "abc12345").2 ≠ store0 := by decide

/-- C6 (amended): register and changePassword reject a weak password with a
400 weak-password error and leave the store unchanged, but
resetPasswordWithAnswer (userController.ts lines 257-276) performs no
strength check: with a correct answer it answers success for any new
password whatsoever. -/
theorem weak_password_enforcement :
    (∀ (store : Store) (newId : String) (inp : RegisterInput),
      inp.firstName ≠ "" → inp.lastName ≠ "" → inp.age ≠ 0 → inp.email ≠ "" →
      inp.password ≠ "" → inp.securityQuestion ≠ "" → inp.securityAnswer ≠ "" →
      isStrongPassword inp.password = false →
      register store newId inp =
        (.err 400 "Password too weak. Must include upper/lowercase, number, and symbol (min 8 chars)",
          store)) ∧
    (∀ (store : Store) (uid cur npw : String) (user : UserRec),
      findById store uid = some user →
      bcryptCompare cur user.password = true →
      isStrongPassword npw = false →
      changePassword2 store (some uid) cur npw =
        (.err 400 "Weak password: must include upper/lowercase, number, and symbol (min 8 chars)",
          store)) ∧
    (∀ (store : Store) (email ans npw : String) (user : UserRec),
      findOneByEmail store email = some user →
      bcryptCompare ans user.securityAnswer = true →
      (resetPasswordWithAnswer store email ans npw).1 =
        .ok 200 "Contraseña restablecida correctamente ✅") := by
  refine ⟨?_, ?_, ?_⟩
  · intro store newId inp h1 h2 h3 h4 h5 h6 h7 hweak
    simp [register, h1, h2, h3, h4, h5, h6, h7, hweak]
  · intro store uid cur npw user hfind hcur hweak
    simp [changePassword2, hfind, hcur, hweak]
  · intro store email ans npw user hfind hans
    simp [resetPasswordWithAnswer, hfind, hans]

/-- Witness for weak_password_enforcement at concrete inputs with the weak
password abc12345. -/
theorem weak_password_enforcement_witness :
    register store0 "u2"
        { regJane with email := "other@example.com", password := "abc12345" } =
      (.err 400 "Password too weak. Must include upper/lowercase, number, and symbol (min 8 chars)",
        store0) ∧
    changePassword2 store0 (some "u1") "Strong@123" "abc12345" =
      (.err 400 "Weak password: must include upper/lowercase, number, and symbol (min 8 chars)",
        store0) ∧
    (resetPasswordWithAnswer store0 "jane@example.com" "Rex" "abc12345").1 =
      .ok 200 "Contraseña restablecida correctamente ✅" :=
  ⟨weak_password_enforcement.1 store0 "u2" _
      (by decide) (by decide) (by decide) (by decide) (by decide) (by decide) (by decide)
      (by decide),
   weak_password_enforcement.2.1 store0 "u1" "Strong@123" "abc12345" jane0
      (by decide) (by decide) (by decide),
   weak_password_enforcement.2.2 store0 "jane@example.com" "Rex" "abc12345" jane0
      (by decide) (by decide)⟩

/-- C7: a registration with present fields and a strong password whose
email already belongs to a stored user under the normalised
(case-insensitive) comparison fails with the Email is already registered
error and leaves the store without a new record. -/
theorem register_duplicate_email_rejected (store : Store) (newId : String)
    (inp : RegisterInput) (user : UserRec)
    (h1 : inp.firstName ≠ "") (h2 : inp.lastName ≠ "") (h3 : inp.age ≠ 0)
    (h4 : inp.email ≠ "") (h5 : inp.password ≠ "") (h6 : inp.securityQuestion ≠ "")
    (h7 : inp.securityAnswer ≠ "")
    (hstrong : isStrongPassword inp.password = true)
    (hdup : findOneByEmail store inp.email = some user) :
    register store newId inp = (.err 400 "Email is already registered", store) := by
  simp [register, h1, h2, h3, h4, h5, h6, h7, hstrong, hdup]

/-- Witness for register_duplicate_email_rejected: registering Jane again
with the differently-cased email JANE@Example.COM hits the stored
jane@example.com and is rejected. -/
theorem register_duplicate_email_rejected_witness :
    register store0 "u2" { regJane with email := "JANE@Example.COM" } =
      (.err 400 "Email is already registered", store0) :=
  register_duplicate_email_rejected store0 "u2" { regJane with email := "JANE@Example.COM" }
    jane0 (by decide) (by decide) (by decide) (by decide) (by decide) (by decide) (by decide)
    (by decide) (by decide)

/-- C8 (counterexample): the getUsers response serialises the full stored
documents: for the concrete store holding Jane, the response contains her
document with the stored password hash and security-answer hash as values
of the password and securityAnswer keys. -/
theorem getUsers_leaks_password_hash :
    getUsers store0 = [userToJson jane0] ∧
    lookupJ (userToJson jane0) "password" = some (.jhash (.hashed (.raw "Strong@123"))) ∧
    lookupJ (userToJson jane0) "securityAnswer" = some (.jhash (.hashed (.raw "Rex"))) ∧
    containsHash (userToJson jane0) = true := by decide

/-- C8 (amended): the register success payload carries no hash value for
any registered user, but every stored document appears in the getUsers
response with its password hash and security-answer hash included. -/
theorem register_payload_has_no_hashes :
    (∀ d : RegisterOk, containsHash (registerOkToJson d) = false) ∧
    (∀ (store : Store), ∀ u ∈ store,
      userToJson u ∈ getUsers store ∧
      lookupJ (userToJson u) "password" = some (.jhash u.password) ∧
      lookupJ (userToJson u) "securityAnswer" = some (.jhash u.securityAnswer)) := by
  constructor
  · intro d
    rfl
  · intro store u hu
    refine ⟨?_, rfl, rfl⟩
    simpa [getUsers] using List.mem_map_of_mem userToJson hu

/-- Witness for register_payload_has_no_hashes at the Jane fixture. -/
theorem register_payload_has_no_hashes_witness :
    containsHash (registerOkToJson
      { id := "u1", firstName := "Jane", lastName := "Doe",
        email := "jane@example.com", securityQuestion := "Pet name?" }) = false ∧
    (userToJson jane0 ∈ getUsers store0 ∧
      lookupJ (userToJson jane0) "password" = some (.jhash jane0.password) ∧
      lookupJ (userToJson jane0) "securityAnswer" = some (.jhash jane0.securityAnswer)) :=
  ⟨register_payload_has_no_hashes.1 _,
   register_payload_has_no_hashes.2 store0 jane0 (by decide)⟩

/-- C9 (counterexample): for an unknown email the first
verifySecurityQuestion variant answers the neutral 200 with a null
question, but the second cited variant answers 404 Usuario no encontrado —
a distinguishable not-found error revealing that the email is not
registered. -/
theorem securityQuestion_variantB_leaks_404 :
    verifySecurityQuestionA store0 "absent@example.com" = .okQuestion 200 none ∧
    verifySecurityQuestionB store0 "absent@example.com" = .err 404 "Usuario no encontrado" ∧
    verifySecurityQuestionB store0 "absent@example.com" ≠
      verifySecurityQuestionA store0 "absent@example.com" := by decide

/-- C9 (amended): variant A returns the plaintext question when the email
is found and the neutral 200 with a null question when it is not; variant B
returns the question when found but a 404 error when not, so only variant A
hides whether the email is registered. -/
theorem securityQuestion_policies (store : Store) (email : String) :
    (findOneByEmail store email = none →
      verifySecurityQuestionA store email = .okQuestion 200 none) ∧
    (∀ user, findOneByEmail store email = some user →
      verifySecurityQuestionA store email = .okQuestion 200 (some user.securityQuestion)) ∧
    (findOneByEmail store email = none →
      verifySecurityQuestionB store email = .err 404 "Usuario no encontrado") ∧
    (∀ user, findOneByEmail store email = some user →
      verifySecurityQuestionB store email = .okQuestion 200 (some user.securityQuestion)) := by
  refine ⟨?_, ?_, ?_, ?_⟩
  · intro h
    simp [verifySecurityQuestionA, h]
  · intro user h
    simp [verifySecurityQuestionA, h]
  · intro h
    simp [verifySecurityQuestionB, h]
  · intro user h
    simp [verifySecurityQuestionB, h]

/-- Witness for securityQuestion_policies at the Jane fixture, on a known
and an unknown email. -/
theorem securityQuestion_policies_witness :
    verifySecurityQuestionA store0 "absent@example.com" = .okQuestion 200 none ∧
    verifySecurityQuestionA store0 "jane@example.com" = .okQuestion 200 (some "Pet name?") ∧
    verifySecurityQuestionB store0 "absent@example.com" = .err 404 "Usuario no encontrado" :=
  ⟨(securityQuestion_policies store0 "absent@example.com").1 (by decide),
   (securityQuestion_policies store0 "jane@example.com").2.1 jane0 (by decide),
   (securityQuestion_policies store0 "absent@example.com").2.2.1 (by decide)⟩

/-- C10: for every store, every authenticated id and every request body
whatsoever, the store updateUser leaves behind has exactly the same
credential view as before, document by document: the password,
securityQuestion and securityAnswer of every user record are unchanged, and
only the allowed firstName, lastName, age and email fields can move. -/
theorem updateUser_preserves_credentials (store : Store) (userIdOpt : Option String)
    (body : List (String × JVal)) :
    credProj (updateUser store userIdOpt body).2 = credProj store := by
  cases userIdOpt with
  | none => rfl
  | some userId =>
    simp only [updateUser]
    split
    · rfl
    · rcases hf : findByIdAndUpdate store userId (fun w => applyAllowed w body) with ⟨opt, st⟩
      have hst := findByIdAndUpdate_snd store userId (fun w => applyAllowed w body)
      rw [hf] at hst
      have hst2 : st = store ∨
          st = store.map (fun w => if w.id == userId then applyAllowed w body else w) := hst
      cases opt with
      | none =>
        show credProj st = credProj store
        rcases hst2 with h | h
        · rw [h]
        · rw [h]
          exact credProj_map_applyAllowed store userId body
      | some x =>
        show credProj st = credProj store
        rcases hst2 with h | h
        · rw [h]
        · rw [h]
          exact credProj_map_applyAllowed store userId body

end MP2
